import Mathlib

/-!
# ngx_http_unzip_module: the content handler

A shallow embedding of `ngx_http_unzip_handler` (src/ngx_http_unzip_module.c,
lines 163-308).  The handler is straight-line code with early returns; every
call it makes to nginx, libc or libzip is answered by a `World`, the record of
what each collaborator returns on this run, and the handler's run is an
`Outcome`: the return value, the calls made in order, and the response state.

Bytes are natural numbers, `0` is the C string terminator.  Sizes are natural
numbers; the one narrowing conversion of the handler (the `zip_int64_t` result
of `zip_fread` stored in an `unsigned int`) is an explicit `% 2 ^ 32`.
`size_t` is taken to be 64 bits wide, like `zip_uint64_t`.
-/

namespace NgxUnzip

/-! ## Memory primitives of the C library -/

/-- The `ngx_str_t` value: `data` points at `len` bytes, which need not be
followed by a terminator.  The list holds exactly those `len` bytes; a read at
an index `len` or above is a read outside the object. -/
structure ngx_str_t where
  data : List Nat
deriving Repr, DecidableEq

/-- The `len` field of an `ngx_str_t`. -/
def ngx_str_t.len (s : ngx_str_t) : Nat := s.data.length

/-- A block returned by `malloc` or `ngx_palloc`: `n` bytes whose contents are
indeterminate, here whatever `g` says. -/
def fresh (g : Nat → Nat) (n : Nat) : List Nat := (List.range n).map g

/-- The call `memset(s, c, n)`: the first `n` bytes of `s` become `c`.  `none`
is a write past the end of the block. -/
def memset (s : List Nat) (c n : Nat) : Option (List Nat) :=
  if n ≤ s.length then some (List.replicate n c ++ s.drop n) else none

/-- Second loop of `strncpy`: `for ( ; i < n; i++) dest[i] = 0`, with `k = n - i`
iterations left. -/
def strncpy_pad (dest : List Nat) (i : Nat) : Nat → Option (List Nat)
  | 0 => some dest
  | k + 1 => if i < dest.length then strncpy_pad (dest.set i 0) (i + 1) k else none

/-- First loop of `strncpy`: `for (i = 0; i < n && src[i] != 0; i++) dest[i] = src[i]`,
with `k = n - i` iterations left; it hands over to the padding loop at the
first `0` byte of the source.  `none` is a read outside `src` or a write
outside `dest`. -/
def strncpy_copy (dest src : List Nat) (i : Nat) : Nat → Option (List Nat)
  | 0 => some dest
  | k + 1 =>
    match src.get? i with
    | none => none
    | some c =>
      if c ≠ 0 then
        if i < dest.length then strncpy_copy (dest.set i c) src (i + 1) k else none
      else strncpy_pad dest i (k + 1)

/-- The call `strncpy(dest, src, n)`. -/
def strncpy (dest src : List Nat) (n : Nat) : Option (List Nat) :=
  strncpy_copy dest src 0 n

/-- The test `c != 0` on a byte. -/
def nonzero (c : Nat) : Bool := decide (c ≠ 0)

/-- The C string a callee reads from a buffer: the bytes before the first `0`.
`none` when the buffer holds no terminator. -/
def cstr : List Nat → Option (List Nat)
  | [] => none
  | c :: rest => if c = 0 then some [] else (cstr rest).map (fun t => c :: t)

/-- Lines 208-213 for one path variable: the block of `len + 1` bytes from
`malloc` (contents `g`) after `memset(path, 0, len + 1)` and
`strncpy(path, data, len)`. -/
def path_buffer (g : Nat → Nat) (s : ngx_str_t) : Option (List Nat) :=
  (memset (fresh g (s.len + 1)) 0 (s.len + 1)).bind (fun b => strncpy b s.data s.len)

/-- The C string that `zip_open`, `zip_stat` and `zip_fopen` read from a path
variable. -/
def path_cstr (g : Nat → Nat) (s : ngx_str_t) : Option (List Nat) :=
  (path_buffer g s).bind cstr

/-! ## Constants of nginx used by the handler -/

/-- The return code `NGX_ERROR`. -/
def NGX_ERROR : Int := -1

/-- The status `NGX_HTTP_OK`. -/
def NGX_HTTP_OK : Nat := 200

/-- The status `NGX_HTTP_NOT_FOUND`. -/
def NGX_HTTP_NOT_FOUND : Int := 404

/-- The status `NGX_HTTP_NOT_ALLOWED`. -/
def NGX_HTTP_NOT_ALLOWED : Int := 405

/-- The status `NGX_HTTP_INTERNAL_SERVER_ERROR`. -/
def NGX_HTTP_INTERNAL_SERVER_ERROR : Int := 500

/-- The method bit `NGX_HTTP_GET` (0x0002). -/
def NGX_HTTP_GET : Nat := 2

/-- The method bit `NGX_HTTP_HEAD` (0x0004). -/
def NGX_HTTP_HEAD : Nat := 4

/-! ## Data of one request -/

/-- The fields of `r->headers_out` the handler assigns. -/
structure ngx_http_headers_out_t where
  status : Nat
  content_length_n : Int
  content_type : String
deriving Repr, DecidableEq

/-- The fields of `ngx_http_request_t` the handler reads.  `method` is the
method bit mask set by the request parser: one bit per HTTP method. -/
structure ngx_http_request_t where
  method : Nat
  headers_out : ngx_http_headers_out_t
deriving Repr, DecidableEq

/-- The buffer descriptor `ngx_buf_t`; `pos` and `last` are offsets from
`zip_content`. -/
structure ngx_buf_t where
  pos : Nat
  last : Nat
  memory : Bool
  last_buf : Bool
deriving Repr, DecidableEq

/-- The bytes `[pos, last)` of a buffer over the memory `mem`. -/
def buf_bytes (mem : Nat → Nat) (b : ngx_buf_t) : List Nat :=
  (List.range (b.last - b.pos)).map (fun i => mem (b.pos + i))

/-- What `zip_fread` does on this run: the `zip_int64_t` it returns (`-1` on
error) and the bytes it has stored at the start of the buffer. -/
structure zip_fread_result where
  ret : Int
  stored : List Nat
deriving Repr, DecidableEq

/-- What each collaborator answers on this run.  The handler calls each of
them at most once.  `none` stands for a failure: a return other than `NGX_OK`
for `ngx_http_complex_value` and `ngx_http_set_content_type`, a `NULL` pointer
for the allocators, a non-zero return for `zip_stat`; `false` is a `NULL`
handle.  An allocator that succeeds yields the indeterminate contents of the
new block.  The return value of `ngx_http_send_header` is discarded by the
handler and is not part of the record. -/
structure World where
  archivefile : Option ngx_str_t
  extract : Option ngx_str_t
  malloc_file : Option (Nat → Nat)
  malloc_extract : Option (Nat → Nat)
  zip_open : Bool
  zip_stat : Option Nat
  ngx_palloc : Option (Nat → Nat)
  zip_fopen : Bool
  zip_fread : zip_fread_result
  set_content_type : Option String
  ngx_pcalloc : Bool
  output_filter : Int

/-- The two path variables of the handler. -/
inductive PathVar
  | unzipfile_path
  | unzipextract_path
deriving Repr, DecidableEq

/-- The two configured complex values. -/
inductive ConfValue
  | file_in_unzip_archivefile
  | file_in_unzip_extract
deriving Repr, DecidableEq

/-- One call made by the handler.  For a call that acquires a resource, `ok`
says whether it returned a non-`NULL` pointer. -/
inductive Call
  | ngx_http_complex_value (v : ConfValue)
  | ngx_log_error (fmt : String)
  | malloc (v : PathVar) (size : Nat) (ok : Bool)
  | free (v : PathVar)
  | memset (v : PathVar) (n : Nat)
  | strncpy (v : PathVar) (n : Nat)
  | zip_open (path : List Nat) (ok : Bool)
  | zip_stat_init
  | zip_stat (path : List Nat)
  | ngx_palloc (size : Nat)
  | zip_fopen (path : List Nat) (ok : Bool)
  | zip_fread (nbytes : Nat)
  | zip_fclose
  | zip_close
  | ngx_http_set_content_type
  | ngx_pcalloc
  | ngx_http_send_header (status : Nat) (content_length_n : Int)
  | ngx_http_output_filter
deriving Repr, DecidableEq

/-- The `return` statement a run leaves the handler by, in source order
(lines 185, 191, 198 and 205, 220, 232, 241, 254, 268, 290, 307). -/
inductive Exit
  | config_error
  | method_not_allowed
  | path_alloc_failed
  | archive_not_found
  | entry_not_found
  | content_alloc_failed
  | entry_open_failed
  | read_failed
  | buf_alloc_failed
  | emitted
deriving Repr, DecidableEq

/-- One run of the handler: the value returned, the `return` statement taken,
the calls made in order, `r->headers_out` at return, the chain handed to
`ngx_http_output_filter` (none when it was not called) and the memory at
`zip_content`. -/
structure Outcome where
  ret : Int
  exit : Exit
  trace : List Call
  headers_out : ngx_http_headers_out_t
  out : Option (List ngx_buf_t)
  zip_content : Nat → Nat

/-! ## Log messages -/

/-- Line 184. -/
def msg_config : String := "Failed to read unzip module configuration settings."

/-- Line 190. -/
def msg_method : String := "Only GET and HEAD requests are supported by the unzip module."

/-- Lines 197 and 204. -/
def msg_alloc : String := "Failed to allocate buffer."

/-- Line 219. -/
def msg_no_archive : String := "%s : no such archive file."

/-- Line 231. -/
def msg_no_entry : String := "no file %s inside %s archive."

/-- Line 240. -/
def msg_content_alloc : String := "Failed to allocate response buffer memory."

/-- Line 252. -/
def msg_fopen : String := "failed to open %s from %s archive (corrupted?)."

/-- Line 266. -/
def msg_fread : String := "couldn't get %d bytes of %s from %s archive (corrupted?)."

/-- Line 289. -/
def msg_buf_alloc : String := "Failed to allocate response buffer."

/-! ## The handler -/

/-- The content handler `ngx_http_unzip_handler` (lines 163-308).  `none` is
undefined behaviour in one of the memory primitives. -/
def ngx_http_unzip_handler (w : World) (r : ngx_http_request_t) : Option Outcome :=
  let stop (ret : Int) (e : Exit) (t : List Call) : Option Outcome :=
    some ⟨ret, e, t, r.headers_out, none, fun _ => 0⟩
  -- lines 182-186: both configured values, the second only when the first is NGX_OK
  match w.archivefile with
  | none =>
    stop NGX_ERROR .config_error
      [.ngx_http_complex_value .file_in_unzip_archivefile, .ngx_log_error msg_config]
  | some unzip_filename =>
  match w.extract with
  | none =>
    stop NGX_ERROR .config_error
      [.ngx_http_complex_value .file_in_unzip_archivefile,
       .ngx_http_complex_value .file_in_unzip_extract, .ngx_log_error msg_config]
  | some unzip_extract =>
  let t0 : List Call :=
    [.ngx_http_complex_value .file_in_unzip_archivefile,
     .ngx_http_complex_value .file_in_unzip_extract]
  -- lines 189-192
  if r.method &&& (NGX_HTTP_GET ||| NGX_HTTP_HEAD) = 0 then
    stop NGX_HTTP_NOT_ALLOWED .method_not_allowed (t0 ++ [.ngx_log_error msg_method])
  else
  -- lines 195-199
  match w.malloc_file with
  | none =>
    stop NGX_HTTP_INTERNAL_SERVER_ERROR .path_alloc_failed
      (t0 ++ [.malloc .unzipfile_path (unzip_filename.len + 1) false, .ngx_log_error msg_alloc])
  | some g1 =>
  -- lines 201-206
  match w.malloc_extract with
  | none =>
    stop NGX_HTTP_INTERNAL_SERVER_ERROR .path_alloc_failed
      (t0 ++ [.malloc .unzipfile_path (unzip_filename.len + 1) true,
              .malloc .unzipextract_path (unzip_extract.len + 1) false,
              .free .unzipfile_path, .ngx_log_error msg_alloc])
  | some g2 =>
  -- lines 208-213
  let t1 : List Call :=
    t0 ++ [.malloc .unzipfile_path (unzip_filename.len + 1) true,
           .malloc .unzipextract_path (unzip_extract.len + 1) true,
           .memset .unzipfile_path (unzip_filename.len + 1),
           .memset .unzipextract_path (unzip_extract.len + 1),
           .strncpy .unzipfile_path unzip_filename.len,
           .strncpy .unzipextract_path unzip_extract.len]
  match path_buffer g1 unzip_filename, path_buffer g2 unzip_extract with
  | some file_buf, some extract_buf =>
    -- lines 216-221
    match cstr file_buf with
    | none => none
    | some unzipfile_path =>
    if w.zip_open = false then
      stop NGX_HTTP_NOT_FOUND .archive_not_found
        (t1 ++ [.zip_open unzipfile_path false, .free .unzipfile_path,
                .free .unzipextract_path, .ngx_log_error msg_no_archive])
    else
    -- lines 224-233
    match cstr extract_buf with
    | none => none
    | some unzipextract_path =>
    let t2 : List Call :=
      t1 ++ [.zip_open unzipfile_path true, .zip_stat_init, .zip_stat unzipextract_path]
    match w.zip_stat with
    | none =>
      stop NGX_HTTP_NOT_FOUND .entry_not_found
        (t2 ++ [.free .unzipfile_path, .free .unzipextract_path, .zip_close,
                .ngx_log_error msg_no_entry])
    | some st_size =>
    -- zip_st.size is a zip_uint64_t
    let size : Nat := st_size % 2 ^ 64
    -- lines 236-242
    match w.ngx_palloc with
    | none =>
      stop NGX_HTTP_INTERNAL_SERVER_ERROR .content_alloc_failed
        (t2 ++ [.ngx_palloc size, .free .unzipfile_path, .free .unzipextract_path,
                .zip_close, .ngx_log_error msg_content_alloc])
    | some g =>
    -- lines 248-255
    if w.zip_fopen = false then
      stop NGX_HTTP_INTERNAL_SERVER_ERROR .entry_open_failed
        (t2 ++ [.ngx_palloc size, .zip_fopen unzipextract_path false,
                .free .unzipfile_path, .free .unzipextract_path, .zip_close,
                .ngx_log_error msg_fopen])
    else
    -- lines 261-269: the zip_int64_t result is stored in an unsigned int
    let t3 : List Call :=
      t2 ++ [.ngx_palloc size, .zip_fopen unzipextract_path true, .zip_fread size]
    let zip_read_bytes : Nat := (w.zip_fread.ret % 2 ^ 32).toNat
    let zip_content : Nat → Nat := fun i => w.zip_fread.stored.getD i (g i)
    if zip_read_bytes = 0 ∨ zip_read_bytes ≠ size then
      some ⟨NGX_HTTP_INTERNAL_SERVER_ERROR, .read_failed,
        t3 ++ [.free .unzipfile_path, .free .unzipextract_path, .zip_fclose, .zip_close,
               .ngx_log_error msg_fread],
        r.headers_out, none, zip_content⟩
    else
    -- lines 272-283
    let t4 : List Call :=
      t3 ++ [.zip_fclose, .zip_close, .free .unzipfile_path, .free .unzipextract_path,
             .ngx_http_set_content_type]
    let content_type : String :=
      match w.set_content_type with
      | some ct => ct
      | none => "text/plain"
    -- lines 286-291
    if w.ngx_pcalloc = false then
      some ⟨NGX_HTTP_INTERNAL_SERVER_ERROR, .buf_alloc_failed,
        t4 ++ [.ngx_pcalloc, .ngx_log_error msg_buf_alloc],
        { r.headers_out with content_type := content_type }, none, zip_content⟩
    else
    -- lines 294-307
    let b : ngx_buf_t := { pos := 0, last := zip_read_bytes, memory := true, last_buf := true }
    some ⟨w.output_filter, .emitted,
      t4 ++ [.ngx_pcalloc, .ngx_http_send_header NGX_HTTP_OK (zip_read_bytes : Int),
             .ngx_http_output_filter],
      { status := NGX_HTTP_OK, content_length_n := (zip_read_bytes : Int),
        content_type := content_type },
      some [b], zip_content⟩
  | _, _ => none

/-! ## Resource accounting over a trace -/

/-- A resource the handler must give back itself: a path buffer from `malloc`,
the archive handle from `zip_open`, the entry stream from `zip_fopen`. -/
inductive Res
  | path (v : PathVar)
  | archive
  | stream
deriving Repr, DecidableEq

/-- The resource a call acquires, if any. -/
def acquired : Call → Option Res
  | .malloc v _ true => some (.path v)
  | .zip_open _ true => some .archive
  | .zip_fopen _ true => some .stream
  | _ => none

/-- The resource a call releases, if any. -/
def released : Call → Option Res
  | .free v => some (.path v)
  | .zip_close => some .archive
  | .zip_fclose => some .stream
  | _ => none

/-- The accounting state: the resources held, and the number of releases of a
resource that was not held. -/
structure Resources where
  held : List Res
  misuse : Nat
deriving Repr, DecidableEq

/-- One step of the accounting. -/
def account_step (s : Resources) (c : Call) : Resources :=
  match acquired c, released c with
  | some a, _ => { s with held := a :: s.held }
  | none, some x =>
    if x ∈ s.held then { s with held := s.held.erase x } else { s with misuse := s.misuse + 1 }
  | none, none => s

/-- The accounting state after a whole trace, from the empty state. -/
def account (t : List Call) : Resources :=
  t.foldl account_step { held := [], misuse := 0 }

/-- Whether a call emits part of the response. -/
def emits : Call → Bool
  | .ngx_http_send_header _ _ => true
  | .ngx_http_output_filter => true
  | _ => false

/-- Whether a call is a call of `zip_open`. -/
def is_zip_open : Call → Bool
  | .zip_open _ _ => true
  | _ => false

/-- Whether a call is a call of `zip_fopen`. -/
def is_zip_fopen : Call → Bool
  | .zip_fopen _ _ => true
  | _ => false

/-- Whether a call works on the entry: `zip_stat`, the content allocation
`ngx_palloc`, `zip_fopen` or `zip_fread`. -/
def touches_entry : Call → Bool
  | .zip_stat _ => true
  | .ngx_palloc _ => true
  | .zip_fopen _ _ => true
  | .zip_fread _ => true
  | _ => false

/-- Whether a call that takes a path is given the expected one: `archive` for
`zip_open`, `entry` for `zip_stat` and `zip_fopen`. -/
def passes_paths (archive entry : List Nat) : Call → Bool
  | .zip_open p _ => decide (p = archive)
  | .zip_stat p => decide (p = entry)
  | .zip_fopen p _ => decide (p = entry)
  | _ => true

/-! ## Concrete runs -/

/-- A run on which every collaborator succeeds: the entry holds the three
bytes `1, 2, 3`. -/
def world_ok : World where
  archivefile := some ⟨[97, 46, 122]⟩
  extract := some ⟨[102]⟩
  malloc_file := some (fun _ => 255)
  malloc_extract := some (fun _ => 255)
  zip_open := true
  zip_stat := some 3
  ngx_palloc := some (fun _ => 255)
  zip_fopen := true
  zip_fread := ⟨3, [1, 2, 3]⟩
  set_content_type := some "text/html"
  ngx_pcalloc := true
  output_filter := 0

/-- The run `world_ok` with the first configured value unresolvable. -/
def world_unresolved : World := { world_ok with archivefile := none }

/-- The run `world_ok` on an archive that cannot be opened. -/
def world_no_archive : World := { world_ok with zip_open := false }

/-- The run `world_ok` on an archive without the requested entry. -/
def world_no_entry : World := { world_ok with zip_stat := none }

/-- The run `world_ok` with a short read: two of the three bytes. -/
def world_short_read : World := { world_ok with zip_fread := ⟨2, [1, 2]⟩ }

/-- The run `world_ok` on an empty entry: size 0, and `zip_fread` returns 0. -/
def world_empty_entry : World := { world_ok with zip_stat := some 0, zip_fread := ⟨0, []⟩ }

/-- The run `world_ok` on an entry of `2 ^ 32 - 1` bytes whose read fails:
`zip_fread` returns `-1` and stores nothing. -/
def world_read_error : World :=
  { world_ok with zip_stat := some 4294967295, zip_fread := ⟨-1, []⟩ }

/-- A `GET` request with untouched response headers. -/
def get_request : ngx_http_request_t := ⟨NGX_HTTP_GET, ⟨0, -1, ""⟩⟩

/-- A `POST` request (`NGX_HTTP_POST` is 0x0008). -/
def post_request : ngx_http_request_t := ⟨8, ⟨0, -1, ""⟩⟩

/-- A resolved value with a `0` byte inside: the bytes `a`, `0`, `b`. -/
def value_with_nul : ngx_str_t := ⟨[97, 0, 98]⟩

/-- The run `world_ok` on an entry of `2 ^ 32` bytes, the bytes `content`, all
delivered by `zip_fread`. -/
def world_huge_entry (content : List Nat) : World :=
  { world_ok with zip_stat := some 4294967296, zip_fread := ⟨4294967296, content⟩ }

/-! ## Lemmas on the memory primitives -/

theorem nonzero_iff (c : Nat) : nonzero c = true ↔ c ≠ 0 := by
  simp [nonzero]

theorem nonzero_zero : nonzero 0 = false := rfl

theorem fresh_length (g : Nat → Nat) (n : Nat) : (fresh g n).length = n := by
  simp [fresh]

theorem strncpy_pad_eq (k : Nat) : ∀ (pre rest : List Nat) (i : Nat),
    pre.length = i → k ≤ rest.length →
    strncpy_pad (pre ++ rest) i k = some (pre ++ List.replicate k 0 ++ rest.drop k) := by
  induction k with
  | zero => intro pre rest i _ _; simp [strncpy_pad]
  | succ k ih =>
    intro pre rest i hi hk
    cases rest with
    | nil => simp at hk
    | cons x xs =>
      have hlt : i < (pre ++ x :: xs).length := by simp [hi]
      have hset : (pre ++ x :: xs).set i 0 = (pre ++ [0]) ++ xs := by
        subst hi
        simp [List.set_append]
      simp only [strncpy_pad, hlt, if_true, hset]
      rw [ih (pre ++ [0]) xs (i + 1) (by simp [hi]) (by simpa using hk)]
      simp [List.replicate_succ]

theorem strncpy_copy_eq (k : Nat) : ∀ (pre rest spre srest : List Nat) (i : Nat),
    pre.length = i → spre.length = i → srest.length = k → k ≤ rest.length →
    strncpy_copy (pre ++ rest) (spre ++ srest) i k =
      some (pre ++ srest.takeWhile nonzero
        ++ List.replicate (k - (srest.takeWhile nonzero).length) 0 ++ rest.drop k) := by
  induction k with
  | zero =>
    intro pre rest spre srest i _ _ hs _
    have : srest = [] := List.length_eq_zero.mp hs
    subst this
    simp [strncpy_copy]
  | succ k ih =>
    intro pre rest spre srest i hi hsi hs hk
    cases srest with
    | nil => simp at hs
    | cons c cs =>
      cases rest with
      | nil => simp at hk
      | cons x xs =>
        have hget : (spre ++ c :: cs).get? i = some c := by
          subst hsi
          rw [List.get?_eq_getElem?, List.getElem?_append_right (le_refl _)]
          simp
        by_cases hc : c = 0
        · subst hc
          simp only [strncpy_copy, hget]
          simp only [ne_eq, not_true_eq_false, if_false]
          rw [strncpy_pad_eq (k + 1) pre (x :: xs) i hi hk]
          simp [List.takeWhile_cons, nonzero_zero]
        · have hlt : i < (pre ++ x :: xs).length := by simp [hi]
          have hset : (pre ++ x :: xs).set i c = (pre ++ [c]) ++ xs := by
            subst hi
            simp [List.set_append]
          have hsrc : spre ++ c :: cs = (spre ++ [c]) ++ cs := by simp
          simp only [strncpy_copy, hget]
          simp only [ne_eq, hc, not_false_eq_true, if_true, hlt, hset]
          rw [hsrc, ih (pre ++ [c]) xs (spre ++ [c]) cs (i + 1) (by simp [hi]) (by simp [hsi])
            (by simpa using hs) (by simpa using hk)]
          have hn : nonzero c = true := (nonzero_iff c).2 hc
          simp [List.takeWhile_cons, hn]

theorem cstr_takeWhile (l : List Nat) (m : Nat) :
    cstr (l.takeWhile nonzero ++ List.replicate (m + 1) 0)
      = some (l.takeWhile nonzero) := by
  induction l with
  | nil => simp [cstr, List.replicate_succ]
  | cons c cs ih =>
    by_cases hc : c = 0
    · subst hc
      simp [cstr, List.replicate_succ, List.takeWhile_cons, nonzero_zero]
    · have hn : nonzero c = true := (nonzero_iff c).2 hc
      simp [List.takeWhile_cons, hn, hc, cstr, ih]

theorem takeWhile_length_le (l : List Nat) :
    (l.takeWhile nonzero).length ≤ l.length := by
  induction l with
  | nil => simp
  | cons c cs ih =>
    by_cases hn : nonzero c = true
    · simp [List.takeWhile_cons, hn, ih]
    · simp [List.takeWhile_cons, hn]

/-- What lines 208-213 leave in a path buffer: the bytes of the value before its
first `0` byte, then zero bytes up to the block's `len + 1` bytes. -/
theorem path_buffer_eq (g : Nat → Nat) (s : ngx_str_t) :
    path_buffer g s = some (s.data.takeWhile nonzero
      ++ List.replicate (s.len + 1 - (s.data.takeWhile nonzero).length) 0) := by
  have h := strncpy_copy_eq s.data.length [] (List.replicate (s.data.length + 1) 0) [] s.data 0
    rfl rfl rfl (by simp)
  simp only [List.nil_append] at h
  simp only [path_buffer, memset, fresh_length, le_refl, if_true, ngx_str_t.len,
    Option.some_bind, strncpy]
  have hd : List.drop (s.data.length + 1) (fresh g (s.data.length + 1)) = [] := by
    apply List.drop_of_length_le
    simp [fresh_length]
  rw [hd, List.append_nil, h]
  have hle := takeWhile_length_le s.data
  have hdrop : List.drop s.data.length (List.replicate (s.data.length + 1) 0) = [0] := by
    simp
  rw [hdrop]
  have e : s.data.length + 1 - (s.data.takeWhile nonzero).length
      = (s.data.length - (s.data.takeWhile nonzero).length) + 1 := by omega
  rw [e, List.replicate_succ']
  simp

/-- The C string read from a path variable is the value cut at its first `0`
byte. -/
theorem path_cstr_eq (g : Nat → Nat) (s : ngx_str_t) :
    path_cstr g s = some (s.data.takeWhile nonzero) := by
  have hle := takeWhile_length_le s.data
  have e : s.len + 1 - (s.data.takeWhile nonzero).length
      = (s.len - (s.data.takeWhile nonzero).length) + 1 := by
    simp only [ngx_str_t.len]; omega
  simp only [path_cstr, path_buffer_eq, Option.some_bind, e]
  exact cstr_takeWhile s.data _

/-- The terminator search on what lines 208-213 leave in a path buffer. -/
theorem cstr_path_image (s : ngx_str_t) :
    cstr (s.data.takeWhile nonzero
      ++ List.replicate (s.len + 1 - (s.data.takeWhile nonzero).length) 0)
      = some (s.data.takeWhile nonzero) := by
  have h := path_cstr_eq (fun _ => 0) s
  simpa only [path_cstr, path_buffer_eq, Option.some_bind] using h

theorem takeWhile_ne_zero_of_not_mem (l : List Nat) (h : 0 ∉ l) :
    l.takeWhile nonzero = l := by
  induction l with
  | nil => rfl
  | cons c cs ih =>
    have hc : nonzero c = true := (nonzero_iff c).2 (fun e => h (by simp [e]))
    have hcs : 0 ∉ cs := fun e => h (by simp [e])
    simp [List.takeWhile_cons, hc, ih hcs]


/-! ## Lemmas on the method test and the read check -/

theorem get_head_passes (m : Nat) (h : m = NGX_HTTP_GET ∨ m = NGX_HTTP_HEAD) :
    ¬ (m &&& (NGX_HTTP_GET ||| NGX_HTTP_HEAD) = 0) := by
  rcases h with h | h <;> subst h <;> decide

theorem other_method_bit (k : Nat) (h1 : 2 ^ k ≠ NGX_HTTP_GET) (h2 : 2 ^ k ≠ NGX_HTTP_HEAD) :
    2 ^ k &&& (NGX_HTTP_GET ||| NGX_HTTP_HEAD) = 0 := by
  apply Nat.eq_of_testBit_eq
  intro i
  rw [Nat.testBit_and, Nat.testBit_two_pow, Nat.zero_testBit]
  by_cases hki : k = i
  · subst hki
    have hbit : (NGX_HTTP_GET ||| NGX_HTTP_HEAD).testBit k = false := by
      match k, h1, h2 with
      | 0, _, _ => decide
      | 1, h1, _ => exact absurd rfl h1
      | 2, _, h2 => exact absurd rfl h2
      | k + 3, _, _ =>
        apply Nat.testBit_lt_two_pow
        have : 2 ^ (k + 3) = 8 * 2 ^ k := by rw [Nat.pow_add]; omega
        have hp : 0 < 2 ^ k := Nat.two_pow_pos k
        show 6 < 2 ^ (k + 3)
        omega
    simp [hbit]
  · simp [hki]

theorem buf_bytes_stored (g : Nat → Nat) (content : List Nat) (m l : Bool) :
    buf_bytes (fun i => content.getD i (g i)) ⟨0, content.length, m, l⟩ = content := by
  apply List.ext_getElem
  · simp [buf_bytes]
  · intro n h1 h2
    simp [buf_bytes, List.getD_eq_getElem?_getD, List.getElem?_eq_getElem h2]

/-! ## The claims -/

/-- C1, as stated, fails: a `POST` request whose first configured value does not
resolve is answered `NGX_ERROR`, not 405, because the values are resolved before
the method is tested. -/
theorem method_check_after_resolve_counterexample :
    post_request.method ≠ NGX_HTTP_GET ∧ post_request.method ≠ NGX_HTTP_HEAD ∧
    (ngx_http_unzip_handler world_unresolved post_request).map Outcome.ret = some NGX_ERROR ∧
    NGX_ERROR ≠ NGX_HTTP_NOT_ALLOWED := by
  refine ⟨by decide, by decide, rfl, by decide⟩

/-- C1, amended: for a request whose method bit is neither GET nor HEAD the
handler never calls `zip_open`; it returns 405 when both configured values
resolve and `NGX_ERROR` when one of them does not. -/
theorem method_not_allowed (w : World) (r : ngx_http_request_t) (k : Nat)
    (hm : r.method = 2 ^ k) (hg : r.method ≠ NGX_HTTP_GET) (hh : r.method ≠ NGX_HTTP_HEAD) :
    ∃ o, ngx_http_unzip_handler w r = some o ∧ o.trace.any is_zip_open = false ∧
      (w.archivefile.isSome = true ∧ w.extract.isSome = true → o.ret = NGX_HTTP_NOT_ALLOWED) ∧
      (¬ (w.archivefile.isSome = true ∧ w.extract.isSome = true) → o.ret = NGX_ERROR) := by
  have hbit : r.method &&& (NGX_HTTP_GET ||| NGX_HTTP_HEAD) = 0 := by
    rw [hm] at hg hh ⊢
    exact other_method_bit k hg hh
  simp only [ngx_http_unzip_handler, hbit, if_true]
  repeat' split
  all_goals exact ⟨_, rfl, by simp_all [is_zip_open]⟩

theorem method_not_allowed_witness :
    ∃ o, ngx_http_unzip_handler world_ok post_request = some o ∧
      o.trace.any is_zip_open = false ∧
      (world_ok.archivefile.isSome = true ∧ world_ok.extract.isSome = true →
        o.ret = NGX_HTTP_NOT_ALLOWED) ∧
      (¬ (world_ok.archivefile.isSome = true ∧ world_ok.extract.isSome = true) →
        o.ret = NGX_ERROR) :=
  method_not_allowed world_ok post_request 3 rfl (by decide) (by decide)

/-- C2, as stated, fails: on a valid archive whose entry is empty (stat size 0,
`zip_fread` delivers all 0 bytes) the handler returns 500 and hands nothing to
the output filter; and so it does on an entry of `2 ^ 32` bytes that
`zip_fread` delivers in full, whatever the bytes. -/
theorem success_response_counterexample :
    (get_request.method = NGX_HTTP_GET ∧ world_empty_entry.zip_stat = some 0 ∧
      world_empty_entry.zip_fread = ⟨0, []⟩ ∧
      (ngx_http_unzip_handler world_empty_entry get_request).map Outcome.ret
        = some NGX_HTTP_INTERNAL_SERVER_ERROR ∧
      (ngx_http_unzip_handler world_empty_entry get_request).map Outcome.out = some none ∧
      (ngx_http_unzip_handler world_empty_entry get_request).map
        (fun o => o.headers_out.status) = some 0) ∧
    (∀ content : List Nat,
      (world_huge_entry content).zip_stat = some (2 ^ 32) ∧
      (world_huge_entry content).zip_fread = ⟨2 ^ 32, content⟩ ∧
      (ngx_http_unzip_handler (world_huge_entry content) get_request).map Outcome.ret
        = some NGX_HTTP_INTERNAL_SERVER_ERROR ∧
      (ngx_http_unzip_handler (world_huge_entry content) get_request).map Outcome.out
        = some none) :=
  ⟨⟨rfl, rfl, rfl, rfl, rfl, rfl⟩, fun _ => ⟨rfl, rfl, rfl, rfl⟩⟩

/-- C2, amended: on a GET or HEAD request for which every collaborator succeeds
and `zip_fread` delivers all `N` bytes of the entry, with `0 < N < 2 ^ 32`, the
handler sets status 200 and Content-Length `N`, sends the header, and hands the
output filter one buffer, marked `last_buf`, whose bytes `[pos, last)` are the
`N` bytes of the entry; it returns what the output filter returns. -/
theorem success_response (w : World) (r : ngx_http_request_t) (a e : ngx_str_t)
    (g1 g2 g : Nat → Nat) (content : List Nat)
    (hm : r.method = NGX_HTTP_GET ∨ r.method = NGX_HTTP_HEAD)
    (ha : w.archivefile = some a) (he : w.extract = some e)
    (hg1 : w.malloc_file = some g1) (hg2 : w.malloc_extract = some g2)
    (hopen : w.zip_open = true) (hstat : w.zip_stat = some content.length)
    (hpalloc : w.ngx_palloc = some g) (hfopen : w.zip_fopen = true)
    (hread : w.zip_fread = ⟨(content.length : Int), content⟩)
    (hbuf : w.ngx_pcalloc = true)
    (hpos : 0 < content.length) (hlt : content.length < 2 ^ 32) :
    ∃ o, ngx_http_unzip_handler w r = some o ∧
      o.ret = w.output_filter ∧
      o.headers_out.status = NGX_HTTP_OK ∧
      o.headers_out.content_length_n = (content.length : Int) ∧
      Call.ngx_http_send_header NGX_HTTP_OK (content.length : Int) ∈ o.trace ∧
      ∃ b, o.out = some [b] ∧ b.last_buf = true ∧ buf_bytes o.zip_content b = content := by
  have hmeth := get_head_passes r.method hm
  have h32 : ((content.length : Int) % 2 ^ 32).toNat = content.length := by omega
  have h64 : content.length % 2 ^ 64 = content.length := by omega
  have hchk : ¬ (content.length = 0 ∨ content.length ≠ content.length) := by omega
  simp only [ngx_http_unzip_handler, path_buffer_eq, cstr_path_image, ha, he, hg1, hg2, hopen,
    hstat, hpalloc, hfopen, hread, hbuf, hmeth, h32, h64, hchk, if_false, Bool.true_eq_false]
  refine ⟨_, rfl, rfl, rfl, rfl, by simp, _, rfl, rfl, ?_⟩
  exact buf_bytes_stored g content true true

theorem success_response_witness :
    ∃ o, ngx_http_unzip_handler world_ok get_request = some o ∧
      o.ret = world_ok.output_filter ∧
      o.headers_out.status = NGX_HTTP_OK ∧
      o.headers_out.content_length_n = (([1, 2, 3] : List Nat).length : Int) ∧
      Call.ngx_http_send_header NGX_HTTP_OK (([1, 2, 3] : List Nat).length : Int) ∈ o.trace ∧
      ∃ b, o.out = some [b] ∧ b.last_buf = true ∧ buf_bytes o.zip_content b = [1, 2, 3] :=
  success_response world_ok get_request ⟨[97, 46, 122]⟩ ⟨[102]⟩ (fun _ => 255) (fun _ => 255)
    (fun _ => 255) [1, 2, 3] (Or.inl rfl) rfl rfl rfl rfl rfl rfl rfl rfl rfl rfl
    (by decide) (by decide)

/-- C3: on a GET or HEAD request whose configured values resolve and whose path
buffers allocate, a failing `zip_open` makes the handler return 404 without
having called `ngx_palloc`, `zip_stat`, `zip_fopen` or `zip_fread`. -/
theorem archive_open_failure (w : World) (r : ngx_http_request_t) (a e : ngx_str_t)
    (g1 g2 : Nat → Nat)
    (hm : r.method = NGX_HTTP_GET ∨ r.method = NGX_HTTP_HEAD)
    (ha : w.archivefile = some a) (he : w.extract = some e)
    (hg1 : w.malloc_file = some g1) (hg2 : w.malloc_extract = some g2)
    (hopen : w.zip_open = false) :
    ∃ o, ngx_http_unzip_handler w r = some o ∧ o.ret = NGX_HTTP_NOT_FOUND ∧
      o.trace.any touches_entry = false := by
  have hmeth := get_head_passes r.method hm
  simp only [ngx_http_unzip_handler, path_buffer_eq, cstr_path_image, ha, he, hg1, hg2, hopen,
    hmeth, if_false, if_true]
  exact ⟨_, rfl, rfl, by simp [touches_entry]⟩

theorem archive_open_failure_witness :
    world_no_archive.zip_open = false ∧
    ∃ o, ngx_http_unzip_handler world_no_archive get_request = some o ∧
      o.ret = NGX_HTTP_NOT_FOUND ∧ o.trace.any touches_entry = false :=
  ⟨rfl, archive_open_failure world_no_archive get_request ⟨[97, 46, 122]⟩ ⟨[102]⟩
    (fun _ => 255) (fun _ => 255) (Or.inl rfl) rfl rfl rfl rfl rfl⟩

/-- C4: on a GET or HEAD request on an archive that opens, a `zip_stat` that does
not find the entry makes the handler return 404 without a call of `zip_fopen`;
`zip_close` has been called once and no resource is held at return. -/
theorem entry_stat_failure (w : World) (r : ngx_http_request_t) (a e : ngx_str_t)
    (g1 g2 : Nat → Nat)
    (hm : r.method = NGX_HTTP_GET ∨ r.method = NGX_HTTP_HEAD)
    (ha : w.archivefile = some a) (he : w.extract = some e)
    (hg1 : w.malloc_file = some g1) (hg2 : w.malloc_extract = some g2)
    (hopen : w.zip_open = true) (hstat : w.zip_stat = none) :
    ∃ o, ngx_http_unzip_handler w r = some o ∧ o.ret = NGX_HTTP_NOT_FOUND ∧
      o.trace.any is_zip_fopen = false ∧ o.trace.count Call.zip_close = 1 ∧
      account o.trace = ⟨[], 0⟩ := by
  have hmeth := get_head_passes r.method hm
  simp only [ngx_http_unzip_handler, path_buffer_eq, cstr_path_image, ha, he, hg1, hg2, hopen,
    hstat, hmeth, if_false, Bool.true_eq_false]
  exact ⟨_, rfl, rfl, by simp [is_zip_fopen], by simp [List.count_cons],
    by simp [account, account_step, acquired, released]⟩

theorem entry_stat_failure_witness :
    world_no_entry.zip_open = true ∧ world_no_entry.zip_stat = none ∧
    ∃ o, ngx_http_unzip_handler world_no_entry get_request = some o ∧
      o.ret = NGX_HTTP_NOT_FOUND ∧
      o.trace.any is_zip_fopen = false ∧ o.trace.count Call.zip_close = 1 ∧
      account o.trace = ⟨[], 0⟩ :=
  ⟨rfl, rfl, entry_stat_failure world_no_entry get_request ⟨[97, 46, 122]⟩ ⟨[102]⟩
    (fun _ => 255) (fun _ => 255) (Or.inl rfl) rfl rfl rfl rfl rfl rfl⟩

/-- C5: when `zip_stat` reports the 64-bit size `N` and `zip_fread` returns a
count `k < N`, the handler returns 500 and has called neither
`ngx_http_send_header` nor `ngx_http_output_filter`, although `k` is compared
after its truncation to 32 bits. -/
theorem short_read_rejected (w : World) (r : ngx_http_request_t) (a e : ngx_str_t)
    (g1 g2 g : Nat → Nat) (N k : Nat)
    (hm : r.method = NGX_HTTP_GET ∨ r.method = NGX_HTTP_HEAD)
    (ha : w.archivefile = some a) (he : w.extract = some e)
    (hg1 : w.malloc_file = some g1) (hg2 : w.malloc_extract = some g2)
    (hopen : w.zip_open = true) (hstat : w.zip_stat = some N) (hN : N < 2 ^ 64)
    (hpalloc : w.ngx_palloc = some g) (hfopen : w.zip_fopen = true)
    (hret : w.zip_fread.ret = (k : Int)) (hk : k < N) :
    ∃ o, ngx_http_unzip_handler w r = some o ∧ o.ret = NGX_HTTP_INTERNAL_SERVER_ERROR ∧
      o.trace.any emits = false ∧ o.out = none ∧
      o.headers_out = r.headers_out := by
  have hmeth := get_head_passes r.method hm
  have hchk : ((k : Int) % 2 ^ 32).toNat = 0 ∨ ((k : Int) % 2 ^ 32).toNat ≠ N % 2 ^ 64 := by
    omega
  simp only [ngx_http_unzip_handler, path_buffer_eq, cstr_path_image, ha, he, hg1, hg2, hopen,
    hstat, hpalloc, hfopen, hret, hmeth, hchk, if_false, if_true, Bool.true_eq_false]
  exact ⟨_, rfl, rfl, by simp [emits], rfl, rfl⟩

theorem short_read_rejected_witness :
    world_short_read.zip_stat = some 3 ∧ world_short_read.zip_fread.ret = 2 ∧
    ∃ o, ngx_http_unzip_handler world_short_read get_request = some o ∧
      o.ret = NGX_HTTP_INTERNAL_SERVER_ERROR ∧
      o.trace.any emits = false ∧ o.out = none ∧
      o.headers_out = get_request.headers_out :=
  ⟨rfl, rfl, short_read_rejected world_short_read get_request ⟨[97, 46, 122]⟩ ⟨[102]⟩
    (fun _ => 255) (fun _ => 255) (fun _ => 255) 3 2 (Or.inl rfl) rfl rfl rfl rfl rfl rfl
    (by decide) rfl rfl rfl (by decide)⟩

/-- C6: on every run the accounting of the trace ends with no resource held and
no release of something not held, and each path buffer, the archive handle and
the entry stream is released exactly as often as it was acquired, at most
once. -/
theorem resources_balanced (w : World) (r : ngx_http_request_t) :
    ∃ o, ngx_http_unzip_handler w r = some o ∧ account o.trace = ⟨[], 0⟩ ∧
      ∀ res : Res, (o.trace.filterMap acquired).count res
          = (o.trace.filterMap released).count res ∧
        (o.trace.filterMap released).count res ≤ 1 := by
  simp only [ngx_http_unzip_handler, path_buffer_eq, cstr_path_image]
  repeat' split
  all_goals
    refine ⟨_, rfl, by simp [account, account_step, acquired, released], ?_⟩
    intro res
    rcases res with (_ | _) | _ | _ <;>
      simp [acquired, released, List.filterMap_cons, List.count_cons]

/-- C7: the code at the failing input.  With a stat size of `2 ^ 32 - 1` and a
`zip_fread` that fails with `-1` and stores nothing, the read of the entry is
not confirmed in full (the value returned is not the stat size), yet the run
calls `ngx_http_send_header` with status 200 and then
`ngx_http_output_filter`, and `headers_out.status` is 200 at return. -/
theorem header_emitted_without_full_read :
    world_read_error.zip_stat = some 4294967295 ∧
    world_read_error.zip_fread.ret ≠ 4294967295 ∧
    world_read_error.zip_fread.stored = [] ∧
    ∃ o, ngx_http_unzip_handler world_read_error get_request = some o ∧
      Call.ngx_http_send_header NGX_HTTP_OK 4294967295 ∈ o.trace ∧
      Call.ngx_http_output_filter ∈ o.trace ∧
      o.headers_out.status = NGX_HTTP_OK ∧
      o.out ≠ none := by
  refine ⟨rfl, by decide, rfl, _, rfl, ?_, ?_, rfl, ?_⟩
  · decide
  · decide
  · simp

/-- C8: the code at the failing input.  With a stat size of `2 ^ 32 - 1` and a
`zip_fread` that fails with `-1`, the read check passes: the handler sets status
200 and Content-Length `2 ^ 32 - 1`, sends the header and hands the buffer to
the output filter. -/
theorem read_error_accepted :
    world_read_error.zip_stat = some (2 ^ 32 - 1) ∧ world_read_error.zip_fread.ret = -1 ∧
    ∃ o, ngx_http_unzip_handler world_read_error get_request = some o ∧
      o.exit = Exit.emitted ∧ o.ret = world_read_error.output_filter ∧
      o.headers_out.status = NGX_HTTP_OK ∧ o.headers_out.content_length_n = 2 ^ 32 - 1 ∧
      o.trace.any emits = true ∧
      o.out = some [⟨0, 2 ^ 32 - 1, true, true⟩] := by
  refine ⟨rfl, rfl, _, rfl, rfl, rfl, rfl, rfl, rfl, rfl⟩

/-- C9: on a GET or HEAD request on an archive that opens and whose entry stats
with size 0, the handler returns 500 by one of its failure returns and emits
nothing, whatever `ngx_palloc`, `zip_fopen` and `zip_fread` return. -/
theorem empty_entry_rejected (w : World) (r : ngx_http_request_t) (a e : ngx_str_t)
    (g1 g2 : Nat → Nat)
    (hm : r.method = NGX_HTTP_GET ∨ r.method = NGX_HTTP_HEAD)
    (ha : w.archivefile = some a) (he : w.extract = some e)
    (hg1 : w.malloc_file = some g1) (hg2 : w.malloc_extract = some g2)
    (hopen : w.zip_open = true) (hstat : w.zip_stat = some 0) :
    ∃ o, ngx_http_unzip_handler w r = some o ∧ o.ret = NGX_HTTP_INTERNAL_SERVER_ERROR ∧
      o.exit ≠ Exit.emitted ∧ o.trace.any emits = false ∧ o.out = none := by
  have hmeth := get_head_passes r.method hm
  have hchk : (w.zip_fread.ret % 2 ^ 32).toNat = 0 ∨
      (w.zip_fread.ret % 2 ^ 32).toNat ≠ 0 % 2 ^ 64 := by omega
  simp only [ngx_http_unzip_handler, path_buffer_eq, cstr_path_image, ha, he, hg1, hg2, hopen,
    hstat, hmeth, hchk, if_false, if_true, Bool.true_eq_false]
  repeat' split
  all_goals exact ⟨_, rfl, rfl, by simp, by simp [emits], rfl⟩

theorem empty_entry_rejected_witness :
    world_empty_entry.zip_stat = some 0 ∧
    ∃ o, ngx_http_unzip_handler world_empty_entry get_request = some o ∧
      o.ret = NGX_HTTP_INTERNAL_SERVER_ERROR ∧
      o.exit ≠ Exit.emitted ∧ o.trace.any emits = false ∧ o.out = none :=
  ⟨rfl, empty_entry_rejected world_empty_entry get_request ⟨[97, 46, 122]⟩ ⟨[102]⟩
    (fun _ => 255) (fun _ => 255) (Or.inl rfl) rfl rfl rfl rfl rfl rfl⟩

/-- C10, as stated, fails: for the three-byte value `a`, `0`, `b` the buffer
holds `a` and three `0` bytes, not the value and one terminator, and the C
string read from it has length 1, not 3. -/
theorem path_materialization_counterexample :
    value_with_nul.len = 3 ∧
    path_buffer (fun _ => 255) value_with_nul = some [97, 0, 0, 0] ∧
    path_buffer (fun _ => 255) value_with_nul ≠ some (value_with_nul.data ++ [0]) ∧
    path_cstr (fun _ => 255) value_with_nul = some [97] ∧
    path_cstr (fun _ => 255) value_with_nul ≠ some value_with_nul.data := by
  refine ⟨rfl, rfl, by decide, rfl, by decide⟩

/-- C10, amended: for resolved values without a `0` byte among their `len`
bytes, each path buffer holds the `len` bytes of its value followed by one `0`
(no read outside the value, whatever the block held before), the C string
read from it is the value, of length `len`, and these are the strings the
handler passes to `zip_open`, `zip_stat` and `zip_fopen`. -/
theorem path_materialization_exact (w : World) (r : ngx_http_request_t) (a e : ngx_str_t)
    (ha : w.archivefile = some a) (he : w.extract = some e)
    (hza : 0 ∉ a.data) (hze : 0 ∉ e.data) :
    (∀ g, path_buffer g a = some (a.data ++ [0]) ∧
      ∃ p, path_cstr g a = some p ∧ p = a.data ∧ p.length = a.len) ∧
    (∀ g, path_buffer g e = some (e.data ++ [0]) ∧
      ∃ p, path_cstr g e = some p ∧ p = e.data ∧ p.length = e.len) ∧
    ∃ o, ngx_http_unzip_handler w r = some o ∧
      o.trace.all (passes_paths a.data e.data) = true := by
  have hta := takeWhile_ne_zero_of_not_mem a.data hza
  have hte := takeWhile_ne_zero_of_not_mem e.data hze
  refine ⟨fun g => ⟨?_, ?_⟩, fun g => ⟨?_, ?_⟩, ?_⟩
  · simp [path_buffer_eq, hta, ngx_str_t.len]
  · exact ⟨_, path_cstr_eq g a, hta, by rw [hta]; rfl⟩
  · simp [path_buffer_eq, hte, ngx_str_t.len]
  · exact ⟨_, path_cstr_eq g e, hte, by rw [hte]; rfl⟩
  · simp only [ngx_http_unzip_handler, path_buffer_eq, cstr_path_image, ha, he]
    repeat' split
    all_goals exact ⟨_, rfl, by simp [passes_paths, hta, hte]⟩

theorem path_materialization_exact_witness :
    (∀ g, path_buffer g ⟨[97, 46, 122]⟩ = some ([97, 46, 122] ++ [0]) ∧
      ∃ p, path_cstr g ⟨[97, 46, 122]⟩ = some p ∧ p = [97, 46, 122] ∧ p.length = 3) ∧
    (∀ g, path_buffer g ⟨[102]⟩ = some ([102] ++ [0]) ∧
      ∃ p, path_cstr g ⟨[102]⟩ = some p ∧ p = [102] ∧ p.length = 1) ∧
    ∃ o, ngx_http_unzip_handler world_ok get_request = some o ∧
      o.trace.all (passes_paths [97, 46, 122] [102]) = true :=
  path_materialization_exact world_ok get_request ⟨[97, 46, 122]⟩ ⟨[102]⟩ rfl rfl
    (by decide) (by decide)

end NgxUnzip
